import Mathlib

/-!
Verification of the pricing and supplier-integration form screens of a
small ERP front-end (files `PricingDetails.tsx`,
`IntegrationProductSupplierErpDetails.tsx` and the pricing request hook).

The JavaScript/TypeScript code is shallowly embedded: JS numbers are
modelled by `JsNum` (NaN, the two infinities, and finite values as
rationals); each screen's reactive state is a structure, and each
`useEffect` / handler body becomes an explicit state-transforming
function.  Side effects (toast notifications, the `onSave` / `onCancel`
callbacks, form resets, rethrown errors) are recorded as an event trace.
-/

/-- Model of a JavaScript number: `NaN`, `Infinity`, `-Infinity`, or a
finite value represented exactly as a rational. -/
inductive JsNum where
  | nan : JsNum
  | inf : JsNum
  | ninf : JsNum
  | num : ℚ → JsNum
deriving DecidableEq, Repr

/-- Value of a list of decimal digit characters. -/
def digitsToNat (l : List Char) : ℕ :=
  l.foldl (fun a c => 10 * a + (c.toNat - 48)) 0

/-- Parse an unsigned decimal literal (`"12"`, `"12.5"`, `".5"`, `"12."`)
as a rational; `none` when the characters do not form such a literal. -/
def parseDecimal (l : List Char) : Option ℚ :=
  let intPart := l.takeWhile Char.isDigit
  let rest := l.dropWhile Char.isDigit
  match rest with
  | [] => if intPart.isEmpty then none else some (digitsToNat intPart : ℚ)
  | c :: fracPart =>
      if c = '.' ∧ fracPart.all Char.isDigit ∧ (¬ intPart.isEmpty ∨ ¬ fracPart.isEmpty)
      then some ((digitsToNat intPart : ℚ) + (digitsToNat fracPart : ℚ) / 10 ^ fracPart.length)
      else none

/-- Model of JavaScript `Number(string)` on the string shapes this code
feeds it: `""` is `0`, `"Infinity"` / `"-Infinity"` are the infinities,
signed decimal literals are their value, anything else is `NaN`. -/
def jsNumberOfString (s : String) : JsNum :=
  match s.toList with
  | [] => JsNum.num 0
  | l =>
    let signPos : Bool := l.head? ≠ some '-'
    let body := if l.head? = some '-' ∨ l.head? = some '+' then l.tail else l
    if body = ['I', 'n', 'f', 'i', 'n', 'i', 't', 'y'] then
      if signPos then JsNum.inf else JsNum.ninf
    else
      match parseDecimal body with
      | some q => JsNum.num (if signPos then q else -q)
      | none => JsNum.nan

/-- Model of JavaScript `parseInt(string)`: optional sign, then the
longest leading run of digits; `none` models the `NaN` result. -/
def jsParseInt (s : String) : Option ℤ :=
  let l := s.toList
  let signPos : Bool := l.head? ≠ some '-'
  let body := if l.head? = some '-' ∨ l.head? = some '+' then l.tail else l
  let ds := body.takeWhile Char.isDigit
  if ds.isEmpty then none
  else some (if signPos then (digitsToNat ds : ℤ) else -(digitsToNat ds : ℤ))

/-- JavaScript `Boolean(n)` on a number: `NaN` and `0` are falsy,
everything else (both infinities included) is truthy. -/
def jsBoolean : JsNum → Bool
  | JsNum.nan => false
  | JsNum.inf => true
  | JsNum.ninf => true
  | JsNum.num q => decide (q ≠ 0)

/-- Truthiness of a string: only `""` is falsy. -/
def truthyStr (s : String) : Bool := decide (s ≠ "")

/-- Truthiness of a possibly-absent numeric form value: an absent value
(JS `undefined`/`NaN` from an empty number input) and `0` are falsy. -/
def truthyNum : Option ℚ → Bool
  | none => false
  | some q => decide (q ≠ 0)

/-- Model of `Number(x.toFixed(2))` on a finite value: round to two
decimals.  JS `toFixed` picks, between the two nearest candidates, the
larger one, i.e. rounds half towards `+∞`, which is Mathlib's `round`. -/
def jsToFixed2 (q : ℚ) : ℚ := (round (q * 100) : ℤ) / 100

/-- Rounding to two decimals with ties away from zero, as the spec's
"standard round-half-away-from-zero to 2 decimals" prescribes. -/
def specRound2 (q : ℚ) : ℚ :=
  if 0 ≤ q then ((⌊q * 100 + 1 / 2⌋ : ℤ) : ℚ) / 100
  else -(((⌊-q * 100 + 1 / 2⌋ : ℤ) : ℚ) / 100)

lemma jsToFixed2_eq_specRound2 {q : ℚ} (h : 0 ≤ q) : jsToFixed2 q = specRound2 q := by
  unfold jsToFixed2 specRound2
  rw [if_pos h, round_eq]

/-! ## Reference data (external interfaces §6) -/

/-- A product as listed by `listProducts`. -/
structure Product where
  id : ℤ
  name : String
deriving DecidableEq, Repr

/-- A product variation as listed by `listProductVariations`. -/
structure ProductVariation where
  id : ℤ
  name : String
deriving DecidableEq, Repr

/-- A supplier as listed by `listSuppliers`. -/
structure Supplier where
  id : ℤ
  tradeName : String
deriving DecidableEq, Repr

/-- A commission ruleset (`ISalePlatformCommission`).  The numeric fields
are optional because the code guards each one with `Number(x || 0)`. -/
structure Commission where
  salePlatformId : ℤ
  commissionPercentage : Option ℚ
  costPerItemSold : Option ℚ
  defaultProfitPercentage : Option ℚ
  additionalProfit : Option ℚ
deriving DecidableEq, Repr

/-- `profitFactor = (100 - (defaultProfitPercentage + commissionPercentage)) / 100`
with the code's `|| 0` defaults. -/
def profitFactor (c : Commission) : ℚ :=
  (100 - (c.defaultProfitPercentage.getD 0 + c.commissionPercentage.getD 0)) / 100

/-! ## Pricing screen (`PricingDetails.tsx`) -/

/-- The react-hook-form field values of the pricing form.  Select fields
hold id strings (`""` when unselected); the two price fields are numeric
inputs registered with `valueAsNumber`, so an empty input is `NaN`,
modelled as `none`. -/
structure PricingForm where
  product : String
  productVariation : String
  salePlatform : String
  costPrice : Option ℚ
  salePrice : Option ℚ
deriving DecidableEq, Repr

/-- The pricing form with every field at its initial (empty) value, the
state `reset()` returns the form to. -/
def initialPricingForm : PricingForm :=
  { product := "", productVariation := "", salePlatform := "",
    costPrice := none, salePrice := none }

/-- The reactive state of one `PricingDetails` screen instance. -/
structure PricingState where
  form : PricingForm
  pricing : Option ℤ
  products : List Product
  productVariations : List ProductVariation
  salePlatformCommissions : List Commission
  salePlatformCommission : Option Commission
deriving DecidableEq, Repr

/-- `isAllFieldsFilled = product && productVariation && salePlatform && costPrice`
(JS truthiness: empty strings and a zero/absent cost price are falsy). -/
def isAllFieldsFilled (f : PricingForm) : Bool :=
  truthyStr f.product && truthyStr f.productVariation &&
    truthyStr f.salePlatform && truthyNum f.costPrice

/-- The `calculatedSalePrice` memo: `0` unless a commission ruleset is
loaded and all fields are filled, otherwise
`Number(((costPrice + additionalProfit + costPerItemSold) / profitFactor).toFixed(2))`. -/
def calculatedSalePrice (st : PricingState) : ℚ :=
  match st.salePlatformCommission with
  | none => 0
  | some c =>
    if isAllFieldsFilled st.form then
      let additionalProfit := c.additionalProfit.getD 0
      let costPerItemSold := c.costPerItemSold.getD 0
      let defaultProfitPercentage := c.defaultProfitPercentage.getD 0
      let commissionPercentage := c.commissionPercentage.getD 0
      let costs := st.form.costPrice.getD 0 + additionalProfit + costPerItemSold
      let profitPercentage := (100 - (defaultProfitPercentage + commissionPercentage)) / 100
      jsToFixed2 (costs / profitPercentage)
    else 0

/-- The `useEffect` that writes the derived sale price: only when all
fields are filled and a commission ruleset is loaded does it
`setValue('salePrice', calculatedSalePrice)`. -/
def salePriceEffect (st : PricingState) : PricingState :=
  if isAllFieldsFilled st.form && st.salePlatformCommission.isSome then
    { st with form := { st.form with salePrice := some (calculatedSalePrice st) } }
  else st

/-- The `useEffect` reacting to `salePlatformId = parseInt(watch('salePlatform'))`:
its whole body is guarded by `if (salePlatformId)` (falsy on `NaN` and `0`),
and inside it stores a fetched ruleset.  The inner
`setSalePlatformCommission(undefined)` branch sits under the same guard
and is therefore unreachable: nothing ever clears the stored ruleset. -/
def loadSalePlatformCommissionEffect (fetch : ℤ → Option Commission)
    (st : PricingState) : PricingState :=
  match jsParseInt st.form.salePlatform with
  | none => st
  | some pid =>
    if pid ≠ 0 then
      match fetch pid with
      | some d => { st with salePlatformCommission := some d }
      | none => st
    else st

/-- The `useEffect` on `productId` in `PricingDetails`: when the product
id is truthy it fetches that product's variations and replaces the list.
It does not touch the `productVariation` form field. -/
def pricingLoadVariationsEffect (fetchVars : Option ℤ → List ProductVariation)
    (st : PricingState) : PricingState :=
  if truthyStr st.form.product then
    { st with productVariations := fetchVars (jsParseInt st.form.product) }
  else st

/-! ## Submit and cancel orchestration, with event traces -/

/-- Observable side effects of the submit/cancel flows, in program order:
the screens' success and failure toasts, the failure toast issued inside
the request hook's `catch`, the `onSave` and `onCancel` callbacks,
`reset()` of the form, and a rethrown error. -/
inductive Event where
  | toastSuccess : Event
  | toastError : Event
  | toastHookError : Event
  | callOnSave : Event
  | callOnCancel : Event
  | formReset : Event
  | throwErr : Event
deriving DecidableEq, Repr

/-- Outcome of the save collaborator as observed by the screen's
`.then`/`.catch`: a saved record, `undefined`, or a rejection. -/
inductive SaveOutcome where
  | success : SaveOutcome
  | returnedUndefined : SaveOutcome
  | rejected : SaveOutcome
deriving DecidableEq, Repr

/-- An event is a failure notification iff it is one of the two error
toasts (the screen's or the hook's). -/
def isFailureToast : Event → Bool
  | Event.toastError => true
  | Event.toastHookError => true
  | _ => false

/-- `handleCancel` of `PricingDetails`: clears the loaded record, the
product / variation / platform-commission lists, calls `reset()` and then
`onCancel?.()`.  It does not touch `salePlatformCommission`. -/
def handleCancelPricing (st : PricingState) : PricingState × List Event :=
  ({ st with pricing := none, products := [], productVariations := [],
             salePlatformCommissions := [], form := initialPricingForm },
   [Event.formReset, Event.callOnCancel])

/-- `onSubmit` of `PricingDetails` combined with the `savePricing` hook.
On a truthy response: `onSave?.()`, then `handleCancel()`, then
`toast.success`, then `reset()`.  On an `undefined` response:
`toast.error` only.  On rejection: the hook's `catch` toasts an error and
rethrows, and the screen's `.catch` rethrows again; the `.then` branch
never runs. -/
def pricingOnSubmit (st : PricingState) (o : SaveOutcome) : PricingState × List Event :=
  match o with
  | SaveOutcome.success =>
    let r := handleCancelPricing st
    (r.1, Event.callOnSave :: r.2 ++ [Event.toastSuccess, Event.formReset])
  | SaveOutcome.returnedUndefined => (st, [Event.toastError])
  | SaveOutcome.rejected => (st, [Event.toastHookError, Event.throwErr])

/-! ## Supplier-integration screen (`IntegrationProductSupplierErpDetails.tsx`) -/

/-- The react-hook-form field values of the supplier-integration form. -/
structure IntegrationForm where
  product : String
  productVariation : String
  supplierId : String
  supplierPrice : Option ℚ
  supplierProductCode : String
  inStockInTheSupplier : String
  supplierProductLink : Option String
  blingProductId : Option ℚ
deriving DecidableEq, Repr

/-- The integration form with every field at its initial (empty) value. -/
def initialIntegrationForm : IntegrationForm :=
  { product := "", productVariation := "", supplierId := "",
    supplierPrice := none, supplierProductCode := "",
    inStockInTheSupplier := "", supplierProductLink := none,
    blingProductId := none }

/-- The reactive state of one `IntegrationProductSupplierErpDetails`
screen instance. -/
structure IntegrationState where
  form : IntegrationForm
  record : Option ℤ
  products : List Product
  productVariations : List ProductVariation
  suppliers : List Supplier
deriving DecidableEq, Repr

/-- The `useEffect` on `productId` in the integration screen: when the
product id is truthy it first clears the variation selection with
`setValue('productVariation', '')` and then fetches and replaces the
variation list. -/
def integrationProductChangeEffect (fetchVars : Option ℤ → List ProductVariation)
    (st : IntegrationState) : IntegrationState :=
  if truthyStr st.form.product then
    { st with form := { st.form with productVariation := "" },
              productVariations := fetchVars (jsParseInt st.form.product) }
  else st

/-- The schema-validated form data (`FormData`) of the integration
screen: strings for the selects and flag, numbers for the price and the
external catalog id, an optional link. -/
structure IntegrationFormData where
  product : String
  productVariation : String
  supplierId : String
  supplierPrice : ℚ
  supplierProductCode : String
  inStockInTheSupplier : String
  supplierProductLink : Option String
  blingProductId : ℚ
deriving DecidableEq, Repr

/-- The payload handed to `saveIntegrationProductSupplierErp`. -/
structure IntegrationPayload where
  productId : Option ℤ
  productVariationId : Option ℤ
  supplierId : Option ℤ
  supplierPrice : ℚ
  supplierProductCode : String
  inStockInTheSupplier : Bool
  supplierProductLink : Option String
  blingProductId : Option ℚ
deriving DecidableEq, Repr

/-- Payload construction inside the integration screen's `onSubmit`:
ids are `parseInt`ed (the product and variation ids from the watched
form values), `inStockInTheSupplier` becomes
`Boolean(Number(data.inStockInTheSupplier))`, and the two optional fields
use `x || undefined`, so falsy values (empty link, `0` or `NaN` id)
become `undefined`. -/
def buildIntegrationPayload (productId productVariationId : String)
    (d : IntegrationFormData) : IntegrationPayload :=
  { productId := jsParseInt productId,
    productVariationId := jsParseInt productVariationId,
    supplierId := jsParseInt d.supplierId,
    supplierPrice := d.supplierPrice,
    supplierProductCode := d.supplierProductCode,
    inStockInTheSupplier := jsBoolean (jsNumberOfString d.inStockInTheSupplier),
    supplierProductLink :=
      match d.supplierProductLink with
      | some s => if s = "" then none else some s
      | none => none,
    blingProductId := if d.blingProductId = 0 then none else some d.blingProductId }

/-- `handleCancel` of the integration screen: clears the loaded record,
the product and variation lists (not the supplier list), calls `reset()`
and then `onCancel()`. -/
def handleCancelIntegration (st : IntegrationState) : IntegrationState × List Event :=
  ({ st with record := none, products := [], productVariations := [],
             form := initialIntegrationForm },
   [Event.formReset, Event.callOnCancel])

/-- `onSubmit` of the integration screen combined with its save hook.
Modelled from the spec: the hook `useIntegrationProductSupplierErpRequests`
is not among the provided sources; per the spec every failing collaborator
call is caught at its boundary, turned into one user-visible notification,
and rethrown — the same shape as the pricing hook that is provided.  The
screen itself mirrors `PricingDetails.onSubmit` exactly. -/
def integrationOnSubmit (st : IntegrationState) (o : SaveOutcome) :
    IntegrationState × List Event :=
  match o with
  | SaveOutcome.success =>
    let r := handleCancelIntegration st
    (r.1, Event.callOnSave :: r.2 ++ [Event.toastSuccess, Event.formReset])
  | SaveOutcome.returnedUndefined => (st, [Event.toastError])
  | SaveOutcome.rejected => (st, [Event.toastHookError, Event.throwErr])

/-! ## Validation schema fragments -/

/-- The two distinct error messages of the price-field schema
`z.preprocess(Number, z.number({...}).positive({...}))`: the `z.number`
message ("deve ser um número") and the `.positive` message
("deve ser um número positivo"). -/
inductive PriceFieldError where
  | mustBeNumber : PriceFieldError
  | mustBePositive : PriceFieldError
deriving DecidableEq, Repr

/-- zod's `.positive()` check (`> 0`) on a non-NaN JS number; `Infinity`
is greater than zero. -/
def jsGtZero : JsNum → Bool
  | JsNum.nan => false
  | JsNum.inf => true
  | JsNum.ninf => false
  | JsNum.num q => decide (0 < q)

/-- Whether a JS number is finite. -/
def JsNum.isFinite : JsNum → Bool
  | JsNum.num _ => true
  | _ => false

/-- The schema of `supplierPrice` / `costPrice` / `salePrice`:
`z.preprocess(Number, z.number().positive())`.  `z.number()` rejects only
`NaN` (it has no finiteness check), `.positive()` then requires `> 0`. -/
def priceFieldValidate (raw : String) : Except PriceFieldError JsNum :=
  match jsNumberOfString raw with
  | JsNum.nan => Except.error PriceFieldError.mustBeNumber
  | v => if jsGtZero v then Except.ok v else Except.error PriceFieldError.mustBePositive

/-- The schema of `blingProductId`: `z.preprocess(Number, z.number())` —
accept any non-NaN coerced number, with no positivity constraint. -/
def blingFieldValidate (raw : String) : Except Unit JsNum :=
  match jsNumberOfString raw with
  | JsNum.nan => Except.error ()
  | v => Except.ok v

/-! ## Concrete example data -/

/-- The spec's worked example ruleset: commission 10%, cost per item 2,
default profit 20%, additional profit 5. -/
def exCommission : Commission :=
  { salePlatformId := 3, commissionPercentage := some 10, costPerItemSold := some 2,
    defaultProfitPercentage := some 20, additionalProfit := some 5 }

/-- The same ruleset with commission 90%, so that
`defaultProfitPercentage + commissionPercentage = 110 ≥ 100`. -/
def exCommissionInvalid : Commission :=
  { salePlatformId := 3, commissionPercentage := some 90, costPerItemSold := some 2,
    defaultProfitPercentage := some 20, additionalProfit := some 5 }

/-- A fully filled pricing screen with the worked-example ruleset
loaded and cost price 100. -/
def exPricingStFull : PricingState :=
  { form := { product := "1", productVariation := "2", salePlatform := "3",
              costPrice := some 100, salePrice := none },
    pricing := none, products := [], productVariations := [],
    salePlatformCommissions := [], salePlatformCommission := some exCommission }

/-- The same screen with the invalid (sum 110%) ruleset loaded. -/
def exPricingStInvalid : PricingState :=
  { exPricingStFull with salePlatformCommission := some exCommissionInvalid }

/-- A pricing screen whose platform selection has become empty while a
ruleset from an earlier selection is still stored. -/
def exPricingStPlatformEmpty : PricingState :=
  { exPricingStFull with form := { exPricingStFull.form with salePlatform := "" } }

/-- A pricing screen just after the product selection changed to product
`"2"` while variation `"7"`, chosen under the previous product, is still
selected and the previous product's variation list is still shown. -/
def exPricingStStaleVar : PricingState :=
  { form := { product := "2", productVariation := "7", salePlatform := "",
              costPrice := none, salePrice := none },
    pricing := none, products := [], productVariations := [{ id := 10, name := "A1" }],
    salePlatformCommissions := [], salePlatformCommission := none }

/-- An integration screen in the same situation: product changed to
`"2"` with variation `"7"` still selected from the previous product. -/
def exIntegrationStStaleVar : IntegrationState :=
  { form := { initialIntegrationForm with product := "2", productVariation := "7" },
    record := none, products := [], productVariations := [{ id := 10, name := "A1" }],
    suppliers := [] }

/-- A variation-list fetcher knowing only product `2`, whose variations
are exactly `[B1]`. -/
def exFetchB : Option ℤ → List ProductVariation :=
  fun o => if o = some 2 then [{ id := 20, name := "B1" }] else []

/-- The pricing screen in its initial (empty) state. -/
def initialPricingState : PricingState :=
  { form := initialPricingForm, pricing := none, products := [],
    productVariations := [], salePlatformCommissions := [],
    salePlatformCommission := none }

/-- Validated integration form data answering "not in stock" (`"0"`) and
leaving the external catalog id empty (coerced to `0`). -/
def exFormDataNo : IntegrationFormData :=
  { product := "1", productVariation := "2", supplierId := "3",
    supplierPrice := 10, supplierProductCode := "ABC",
    inStockInTheSupplier := "0", supplierProductLink := none,
    blingProductId := 0 }

/-- Validated integration form data answering "in stock" (`"1"`). -/
def exFormDataYes : IntegrationFormData :=
  { exFormDataNo with inStockInTheSupplier := "1", blingProductId := 42 }


/-! ## Claims -/

/-- C1: whenever product, variation, platform and cost price are all
present, the commission ruleset is loaded, and
`profitFactor = (100 - (defaultProfitPercentage + commissionPercentage)) / 100`
is strictly positive, the pricing calculator returns
`round((costPrice + additionalProfit + costPerItemSold) / profitFactor)`
to two decimals (round half away from zero). -/
theorem pricing_salePrice_formula (st : PricingState) (c : Commission) (cp : ℚ)
    (hc : st.salePlatformCommission = some c)
    (hf : isAllFieldsFilled st.form = true)
    (hcp : st.form.costPrice = some cp) (hcp0 : 0 < cp)
    (hap : 0 ≤ c.additionalProfit.getD 0) (hcis : 0 ≤ c.costPerItemSold.getD 0)
    (hpf : 0 < profitFactor c) :
    calculatedSalePrice st =
      specRound2 ((cp + c.additionalProfit.getD 0 + c.costPerItemSold.getD 0) /
        profitFactor c) := by
  have hnum : 0 ≤ (cp + c.additionalProfit.getD 0 + c.costPerItemSold.getD 0) /
      profitFactor c :=
    div_nonneg (by linarith) hpf.le
  have h1 : calculatedSalePrice st =
      jsToFixed2 ((cp + c.additionalProfit.getD 0 + c.costPerItemSold.getD 0) /
        profitFactor c) := by
    simp only [calculatedSalePrice, hc, hf, if_true, hcp, Option.getD_some, profitFactor]
  rw [h1, jsToFixed2_eq_specRound2 hnum]

/-- C1 witness: the worked example — costPrice 100, additionalProfit 5,
costPerItemSold 2, defaultProfitPercentage 20, commissionPercentage 10 —
satisfies every hypothesis and yields 152.86. -/
theorem pricing_salePrice_formula_witness :
    isAllFieldsFilled exPricingStFull.form = true ∧
    (0 : ℚ) < profitFactor exCommission ∧
    calculatedSalePrice exPricingStFull =
      specRound2 ((100 + exCommission.additionalProfit.getD 0 +
        exCommission.costPerItemSold.getD 0) / profitFactor exCommission) ∧
    calculatedSalePrice exPricingStFull = 15286 / 100 := by
  refine ⟨by decide, by norm_num [profitFactor, exCommission], ?_, ?_⟩
  · exact pricing_salePrice_formula exPricingStFull exCommission 100 rfl (by decide) rfl
      (by norm_num) (by norm_num [exCommission]) (by norm_num [exCommission])
      (by norm_num [profitFactor, exCommission])
  · norm_num [calculatedSalePrice, exPricingStFull, exCommission, isAllFieldsFilled,
      truthyStr, truthyNum, jsToFixed2, round_eq]
    decide

/-- C2: with `defaultProfitPercentage + commissionPercentage = 110`
(profitFactor `-1/10 < 0`), the calculator does not signal any error: it
returns the plain number `-1070`, and the sale-price effect writes that
number into the sale-price form field. -/
theorem pricing_invalidCommission_returns_numeric :
    profitFactor exCommissionInvalid < 0 ∧
    calculatedSalePrice exPricingStInvalid = -1070 ∧
    (salePriceEffect exPricingStInvalid).form.salePrice = some (-1070) := by
  have hcalc : calculatedSalePrice exPricingStInvalid = -1070 := by
    norm_num [calculatedSalePrice, exPricingStInvalid, exPricingStFull,
      exCommissionInvalid, isAllFieldsFilled, truthyStr, truthyNum,
      jsToFixed2, round_eq]
    decide
  have heff : (salePriceEffect exPricingStInvalid).form.salePrice =
      some (calculatedSalePrice exPricingStInvalid) := rfl
  rw [hcalc] at heff
  exact ⟨by norm_num [profitFactor, exCommissionInvalid], hcalc, heff⟩

/-- C4: if any precondition fails (a field missing or the commission
ruleset not loaded), the calculator yields `0` and the sale-price effect
does not write anything: the state is unchanged. -/
theorem pricing_precondition_failure_yields_zero (st : PricingState)
    (h : ¬ (isAllFieldsFilled st.form = true ∧
      st.salePlatformCommission.isSome = true)) :
    calculatedSalePrice st = 0 ∧ salePriceEffect st = st := by
  cases hsc : st.salePlatformCommission with
  | none =>
    exact ⟨by simp [calculatedSalePrice, hsc], by simp [salePriceEffect, hsc]⟩
  | some c =>
    have hf : isAllFieldsFilled st.form = false := by
      cases hiaf : isAllFieldsFilled st.form
      · rfl
      · exact absurd ⟨hiaf, by rw [hsc]; rfl⟩ h
    exact ⟨by simp [calculatedSalePrice, hsc, hf], by simp [salePriceEffect, hf]⟩

/-- C4 witness: the initial empty screen fails the preconditions, the
calculator yields `0`, and no write occurs. -/
theorem pricing_precondition_failure_yields_zero_witness :
    ¬ (isAllFieldsFilled initialPricingState.form = true ∧
      initialPricingState.salePlatformCommission.isSome = true) ∧
    calculatedSalePrice initialPricingState = 0 ∧
    salePriceEffect initialPricingState = initialPricingState :=
  ⟨by decide, pricing_precondition_failure_yields_zero initialPricingState (by decide)⟩

/-- C3: on the pricing screen, changing the product to `"2"` replaces
the variation list with exactly product 2's list, but the variation
`"7"` selected under the previous product is NOT cleared — it stays
attached to the new product's variation set.  The supplier-integration
screen, in the same situation, does clear it (and also replaces the
list), showing the clearing step was intended and is missing from the
pricing screen. -/
theorem pricing_productChange_retains_stale_variation :
    (pricingLoadVariationsEffect exFetchB exPricingStStaleVar).productVariations =
      [{ id := 20, name := "B1" }] ∧
    (pricingLoadVariationsEffect exFetchB exPricingStStaleVar).form.productVariation = "7" ∧
    (integrationProductChangeEffect exFetchB exIntegrationStStaleVar).form.productVariation = "" ∧
    (integrationProductChangeEffect exFetchB exIntegrationStStaleVar).productVariations =
      [{ id := 20, name := "B1" }] := by
  refine ⟨by decide, by decide, by decide, by decide⟩

/-- C5: with the platform selection empty (`parseInt('')` is `NaN`, so
the effect's guard fails) the commission-loading effect leaves the
previously stored ruleset in place whatever the fetcher would answer,
and `handleCancel` also leaves it in place: nothing ever clears it. -/
theorem pricing_stale_commission_retained :
    (∀ fetch : ℤ → Option Commission,
      loadSalePlatformCommissionEffect fetch exPricingStPlatformEmpty =
        exPricingStPlatformEmpty) ∧
    exPricingStPlatformEmpty.salePlatformCommission = some exCommission ∧
    (handleCancelPricing exPricingStPlatformEmpty).1.salePlatformCommission =
      some exCommission := by
  exact ⟨fun fetch => rfl, rfl, rfl⟩

/-- C6: at submit, the validated string flag `inStockInTheSupplier` is
converted by `Boolean(Number(s))`: `"0"` yields payload `false` and
`"1"` yields payload `true`. -/
theorem integration_inStock_truthiness (pid vid : String) (d : IntegrationFormData) :
    (d.inStockInTheSupplier = "0" →
      (buildIntegrationPayload pid vid d).inStockInTheSupplier = false) ∧
    (d.inStockInTheSupplier = "1" →
      (buildIntegrationPayload pid vid d).inStockInTheSupplier = true) := by
  constructor <;> intro h <;>
    simp only [buildIntegrationPayload, h] <;> rfl

/-- C6 witness: concrete submits with `"0"` and `"1"`. -/
theorem integration_inStock_truthiness_witness :
    exFormDataNo.inStockInTheSupplier = "0" ∧
    (buildIntegrationPayload "1" "2" exFormDataNo).inStockInTheSupplier = false ∧
    exFormDataYes.inStockInTheSupplier = "1" ∧
    (buildIntegrationPayload "1" "2" exFormDataYes).inStockInTheSupplier = true :=
  ⟨rfl, (integration_inStock_truthiness "1" "2" exFormDataNo).1 rfl, rfl,
   (integration_inStock_truthiness "1" "2" exFormDataYes).2 rfl⟩

/-- C7: on both screens, a submit whose save call fails — the
collaborator resolves to `undefined` or rejects — leaves the screen
state (the draft included) unchanged, issues exactly one failure
notification, does not reset the form, does not invoke the completion
callback, and issues no success notification. -/
theorem submit_failure_preserves_draft (stP : PricingState) (stI : IntegrationState)
    (o : SaveOutcome) (h : o ≠ SaveOutcome.success) :
    (pricingOnSubmit stP o).1 = stP ∧
    ((pricingOnSubmit stP o).2.filter isFailureToast).length = 1 ∧
    Event.formReset ∉ (pricingOnSubmit stP o).2 ∧
    Event.callOnSave ∉ (pricingOnSubmit stP o).2 ∧
    Event.toastSuccess ∉ (pricingOnSubmit stP o).2 ∧
    (integrationOnSubmit stI o).1 = stI ∧
    ((integrationOnSubmit stI o).2.filter isFailureToast).length = 1 ∧
    Event.formReset ∉ (integrationOnSubmit stI o).2 ∧
    Event.callOnSave ∉ (integrationOnSubmit stI o).2 ∧
    Event.toastSuccess ∉ (integrationOnSubmit stI o).2 := by
  cases o with
  | success => exact absurd rfl h
  | returnedUndefined =>
    exact ⟨rfl, rfl,
      show Event.formReset ∉ [Event.toastError] by decide,
      show Event.callOnSave ∉ [Event.toastError] by decide,
      show Event.toastSuccess ∉ [Event.toastError] by decide,
      rfl, rfl,
      show Event.formReset ∉ [Event.toastError] by decide,
      show Event.callOnSave ∉ [Event.toastError] by decide,
      show Event.toastSuccess ∉ [Event.toastError] by decide⟩
  | rejected =>
    exact ⟨rfl, rfl,
      show Event.formReset ∉ [Event.toastHookError, Event.throwErr] by decide,
      show Event.callOnSave ∉ [Event.toastHookError, Event.throwErr] by decide,
      show Event.toastSuccess ∉ [Event.toastHookError, Event.throwErr] by decide,
      rfl, rfl,
      show Event.formReset ∉ [Event.toastHookError, Event.throwErr] by decide,
      show Event.callOnSave ∉ [Event.toastHookError, Event.throwErr] by decide,
      show Event.toastSuccess ∉ [Event.toastHookError, Event.throwErr] by decide⟩

/-- C7 witness: a concrete failed save (`undefined` response) on both
screens, drafts retained. -/
theorem submit_failure_preserves_draft_witness :
    SaveOutcome.returnedUndefined ≠ SaveOutcome.success ∧
    (pricingOnSubmit exPricingStFull SaveOutcome.returnedUndefined).1 = exPricingStFull ∧
    (integrationOnSubmit exIntegrationStStaleVar SaveOutcome.returnedUndefined).1 =
      exIntegrationStStaleVar :=
  ⟨by decide,
   (submit_failure_preserves_draft exPricingStFull exIntegrationStStaleVar
      SaveOutcome.returnedUndefined (by decide)).1,
   (submit_failure_preserves_draft exPricingStFull exIntegrationStStaleVar
      SaveOutcome.returnedUndefined (by decide)).2.2.2.2.2.1⟩

/-- C8 counterexample: at a concrete successful submit the event trace
begins with the completion callback, not the success notification — the
notification comes only after the callback and the state reset, and the
stored commission ruleset survives the reset. -/
theorem pricing_submit_success_order_cex :
    (pricingOnSubmit exPricingStFull SaveOutcome.success).2 =
      [Event.callOnSave, Event.formReset, Event.callOnCancel,
       Event.toastSuccess, Event.formReset] ∧
    (pricingOnSubmit exPricingStFull SaveOutcome.success).2.head? ≠
      some Event.toastSuccess ∧
    (pricingOnSubmit exPricingStFull SaveOutcome.success).1.salePlatformCommission =
      some exCommission := by
  exact ⟨rfl, by decide, rfl⟩

/-- C8 amended: a successful submit issues exactly one success
notification and invokes the completion callback, but the order is:
completion callback first, then the local state reset (which also fires
the cancel callback), then the success notification, then a second form
reset; and the reset clears the draft and the reference lists but not
the stored commission ruleset. -/
theorem pricing_submit_success_effects (st : PricingState) :
    (pricingOnSubmit st SaveOutcome.success).2 =
      [Event.callOnSave, Event.formReset, Event.callOnCancel,
       Event.toastSuccess, Event.formReset] ∧
    (pricingOnSubmit st SaveOutcome.success).2.count Event.toastSuccess = 1 ∧
    Event.callOnSave ∈ (pricingOnSubmit st SaveOutcome.success).2 ∧
    (pricingOnSubmit st SaveOutcome.success).1 =
      { form := initialPricingForm, pricing := none, products := [],
        productVariations := [], salePlatformCommissions := [],
        salePlatformCommission := st.salePlatformCommission } := by
  refine ⟨rfl, rfl, ?_, rfl⟩
  show Event.callOnSave ∈ [Event.callOnSave, Event.formReset, Event.callOnCancel,
    Event.toastSuccess, Event.formReset]
  decide

/-- C9 counterexample: the raw input `"Infinity"` coerces to a
non-finite number and is nevertheless accepted by the price-field
schema: `z.number()` rejects only `NaN` and `.positive()` holds of
`Infinity`, so acceptance is not restricted to finite numbers. -/
theorem priceField_accepts_infinity_cex :
    priceFieldValidate "Infinity" = Except.ok JsNum.inf ∧
    JsNum.inf.isFinite = false :=
  ⟨rfl, rfl⟩

/-- C9 amended: validation coerces the raw input with `Number` and
accepts exactly the inputs whose coerced value is not `NaN` and is
greater than `0` (`Infinity` included); non-numeric input (coercion to
`NaN`) yields the "must be a number" error, and any other rejected
input yields the distinct "must be positive" error. -/
theorem priceField_validation_characterization (s : String) :
    (priceFieldValidate s = Except.ok (jsNumberOfString s) ↔
      jsNumberOfString s ≠ JsNum.nan ∧ jsGtZero (jsNumberOfString s) = true) ∧
    (priceFieldValidate s = Except.error PriceFieldError.mustBeNumber ↔
      jsNumberOfString s = JsNum.nan) ∧
    (priceFieldValidate s = Except.error PriceFieldError.mustBePositive ↔
      jsNumberOfString s ≠ JsNum.nan ∧ jsGtZero (jsNumberOfString s) = false) := by
  cases h : jsNumberOfString s with
  | nan => simp [priceFieldValidate, h]
  | inf => simp [priceFieldValidate, h, jsGtZero]
  | ninf => simp [priceFieldValidate, h, jsGtZero]
  | num q =>
    by_cases hq : (0 : ℚ) < q
    · simp [priceFieldValidate, h, jsGtZero, hq]
    · simp [priceFieldValidate, h, jsGtZero, hq]

/-- C10: the empty `blingProductId` input coerces via `Number("")` to
`0` and passes the "must be a valid number" check, so the declared-
required field behaves as optional; and at submit `x || undefined` maps
any falsy validated value — `0` in particular — to `undefined`, so a
`blingProductId` of `0` is never part of a payload. -/
theorem bling_zero_never_persisted :
    blingFieldValidate "" = Except.ok (JsNum.num 0) ∧
    (∀ (pid vid : String) (d : IntegrationFormData), d.blingProductId = 0 →
      (buildIntegrationPayload pid vid d).blingProductId = none) ∧
    (∀ (pid vid : String) (d : IntegrationFormData) (q : ℚ),
      (buildIntegrationPayload pid vid d).blingProductId = some q → q ≠ 0) := by
  refine ⟨rfl, ?_, ?_⟩
  · intro pid vid d h
    simp [buildIntegrationPayload, h]
  · intro pid vid d q h
    simp only [buildIntegrationPayload] at h
    by_cases h0 : d.blingProductId = 0
    · rw [if_pos h0] at h
      exact absurd h (by simp)
    · rw [if_neg h0] at h
      exact (Option.some.inj h) ▸ h0

/-- C10 witness: the concrete form data with `blingProductId = 0`
produces a payload without a `blingProductId`. -/
theorem bling_zero_never_persisted_witness :
    exFormDataNo.blingProductId = 0 ∧
    (buildIntegrationPayload "1" "2" exFormDataNo).blingProductId = none :=
  ⟨rfl, bling_zero_never_persisted.2.1 "1" "2" exFormDataNo rfl⟩
